import Mathlib

/-!
Shallow embedding of `src/voorhees.rs`: a minimal JSON-subset parser
(null / boolean / nested arrays) made of a byte-level `Lexer` and a
recursive-descent parser. Strings are modelled as lists of byte values
(`List Nat`); Rust's `from_utf8(...).unwrap()` calls, which panic on
invalid UTF-8, are modelled by an explicit `panic` outcome guarded by a
UTF-8 validity check. Recursion in `parse_` is modelled with fuel; the
top-level `parse` supplies fuel `2 * length + 2`, ample for the tokens
a buffer of that length can hold.
-/

namespace Voorhees

/-- Byte values of an ASCII string literal (every literal used below is
ASCII, where `Char.toNat` coincides with the UTF-8 byte). -/
def asciiBytes (s : String) : List Nat := s.data.map Char.toNat

/-- `enum Value` of voorhees.rs lines 3-9. -/
inductive Value where
  | null : Value
  | boolean : Bool → Value
  | array : List Value → Value

mutual

/-- Decidable equality for `Value` (the nested `List Value` defeats the
deriving handler, so it is spelled out). -/
def Value.decEq : (a b : Value) → Decidable (a = b)
  | .null, .null => .isTrue rfl
  | .null, .boolean _ => .isFalse (fun h => Value.noConfusion h)
  | .null, .array _ => .isFalse (fun h => Value.noConfusion h)
  | .boolean _, .null => .isFalse (fun h => Value.noConfusion h)
  | .boolean a, .boolean b =>
    match Bool.decEq a b with
    | .isTrue h => .isTrue (h ▸ rfl)
    | .isFalse h => .isFalse (fun hh => h (Value.boolean.inj hh))
  | .boolean _, .array _ => .isFalse (fun h => Value.noConfusion h)
  | .array _, .null => .isFalse (fun h => Value.noConfusion h)
  | .array _, .boolean _ => .isFalse (fun h => Value.noConfusion h)
  | .array xs, .array ys =>
    match Value.decEqList xs ys with
    | .isTrue h => .isTrue (h ▸ rfl)
    | .isFalse h => .isFalse (fun hh => h (Value.array.inj hh))

/-- Decidable equality for lists of `Value`. -/
def Value.decEqList : (xs ys : List Value) → Decidable (xs = ys)
  | [], [] => .isTrue rfl
  | [], _ :: _ => .isFalse (fun h => List.noConfusion h)
  | _ :: _, [] => .isFalse (fun h => List.noConfusion h)
  | x :: xs, y :: ys =>
    match Value.decEq x y, Value.decEqList xs ys with
    | .isTrue h1, .isTrue h2 => .isTrue (by rw [h1, h2])
    | .isFalse h1, _ => .isFalse (fun hh => h1 (List.cons.inj hh).1)
    | _, .isFalse h2 => .isFalse (fun hh => h2 (List.cons.inj hh).2)

end

instance : DecidableEq Value := Value.decEq

/-- `struct Lexer` of voorhees.rs lines 14-17: input byte buffer and cursor. -/
structure Lexer where
  s : List Nat
  pos : Nat
deriving DecidableEq

/-- `Lexer::eof` (lines 24-26): `self.pos >= self.s.len()`. -/
def Lexer.eof (l : Lexer) : Bool := decide (l.s.length ≤ l.pos)

/-- `Lexer::advance` (lines 28-32): increment the cursor unless at eof. -/
def Lexer.advance (l : Lexer) : Lexer :=
  if l.eof then l else Lexer.mk l.s (l.pos + 1)

/-- `Lexer::peek_byte` (lines 34-40). -/
def Lexer.peek_byte (l : Lexer) : Option Nat :=
  if l.eof then none else l.s.get? l.pos

/-- `Lexer::take_byte` (lines 42-50): the byte read together with the
advanced lexer. -/
def Lexer.take_byte (l : Lexer) : Option Nat × Lexer :=
  if l.eof then (none, l) else (l.s.get? l.pos, l.advance)

/-- `Lexer::take_while` (lines 61-72): the loop advances while the next
byte satisfies `pred`, so it consumes exactly the maximal `pred`-run
starting at the cursor and returns that slice. -/
def Lexer.take_while (l : Lexer) (pred : Nat → Bool) : List Nat × Lexer :=
  let run := (l.s.drop l.pos).takeWhile pred
  (run, Lexer.mk l.s (l.pos + run.length))

/-- The whitespace predicate of `Lexer::skip_whitespace` (line 75):
space, tab, carriage return, line feed. -/
def isWhitespaceByte (b : Nat) : Bool := b == 32 || b == 9 || b == 13 || b == 10

/-- `Lexer::skip_whitespace` (lines 74-76). -/
def Lexer.skip_whitespace (l : Lexer) : Lexer :=
  (l.take_while isWhitespaceByte).2

/-- `Lexer::is_identifier_start` (lines 78-80): ASCII letter or underscore. -/
def is_identifier_start (b : Nat) : Bool :=
  decide ((97 ≤ b ∧ b ≤ 122) ∨ (65 ≤ b ∧ b ≤ 90) ∨ b = 95)

/-- `Lexer::is_identifier_char` (lines 82-84): identifier start or digit. -/
def is_identifier_char (b : Nat) : Bool :=
  is_identifier_start b || decide (48 ≤ b ∧ b ≤ 57)

/-- `Lexer::token` (lines 86-119): skip whitespace; empty token at eof;
else classify the next byte (punctuation `[ ] , : { }` → that one byte,
identifier start → maximal identifier run, anything else → that one
byte), then skip trailing whitespace. -/
def Lexer.token (l : Lexer) : List Nat × Lexer :=
  let l1 := l.skip_whitespace
  if l1.eof then ([], l1)
  else
    let byte := l1.s.getD l1.pos 0
    let step : List Nat × Lexer :=
      if byte = 91 ∨ byte = 93 ∨ byte = 44 ∨ byte = 58 ∨ byte = 123 ∨ byte = 125 then
        ([byte], l1.advance)
      else if is_identifier_start byte then
        l1.take_while is_identifier_char
      else
        ([byte], l1.advance)
    (step.1, step.2.skip_whitespace)

/-- `Lexer::rest` (lines 121-123): the bytes from the cursor to the end. -/
def Lexer.rest (l : Lexer) : List Nat := l.s.drop l.pos

/-- A UTF-8 continuation byte, `0x80..=0xBF`. -/
def isUtf8Cont (b : Nat) : Bool := decide (128 ≤ b ∧ b ≤ 191)

/-- Validity of a byte list as UTF-8, as Rust's `str::from_utf8` checks
it (well-formed sequences only: no overlong forms, no surrogates, no
code points above U+10FFFF). -/
def isValidUtf8 : List Nat → Bool
  | [] => true
  | b :: rest =>
    if b ≤ 127 then isValidUtf8 rest
    else if 194 ≤ b ∧ b ≤ 223 then
      match rest with
      | c :: rest2 => isUtf8Cont c && isValidUtf8 rest2
      | [] => false
    else if b = 224 then
      match rest with
      | c :: d :: rest2 => decide (160 ≤ c ∧ c ≤ 191) && isUtf8Cont d && isValidUtf8 rest2
      | _ => false
    else if (225 ≤ b ∧ b ≤ 236) ∨ b = 238 ∨ b = 239 then
      match rest with
      | c :: d :: rest2 => isUtf8Cont c && isUtf8Cont d && isValidUtf8 rest2
      | _ => false
    else if b = 237 then
      match rest with
      | c :: d :: rest2 => decide (128 ≤ c ∧ c ≤ 159) && isUtf8Cont d && isValidUtf8 rest2
      | _ => false
    else if b = 240 then
      match rest with
      | c :: d :: e :: rest2 =>
        decide (144 ≤ c ∧ c ≤ 191) && isUtf8Cont d && isUtf8Cont e && isValidUtf8 rest2
      | _ => false
    else if 241 ≤ b ∧ b ≤ 243 then
      match rest with
      | c :: d :: e :: rest2 =>
        isUtf8Cont c && isUtf8Cont d && isUtf8Cont e && isValidUtf8 rest2
      | _ => false
    else if b = 244 then
      match rest with
      | c :: d :: e :: rest2 =>
        decide (128 ≤ c ∧ c ≤ 143) && isUtf8Cont d && isUtf8Cont e && isValidUtf8 rest2
      | _ => false
    else false

/-- Outcome of `parse_` (voorhees.rs lines 151-185). `ok` carries the
value and the lexer state after it; `err` carries the `ParseError`
message bytes; `panic` models a `from_utf8(...).unwrap()` failure;
`outOfFuel` is the fuel artifact of the embedding, never reached with
the fuel `parse` supplies on the inputs considered here. -/
inductive PResult where
  | ok : Value → Lexer → PResult
  | err : List Nat → PResult
  | panic : PResult
  | outOfFuel : PResult
deriving DecidableEq

mutual

/-- `parse_` (lines 151-185): read one token; `println!` with
`from_utf8(token).unwrap()` (line 153) panics when the token is not
valid UTF-8; empty token → unexpected end of document; the literals
`null`, `true`, `false` → the corresponding `Value`; `[` → the array
loop; anything else → unknown-token error naming the token text. -/
def parse_ : Nat → Lexer → PResult
  | 0, _ => .outOfFuel
  | fuel + 1, lexer =>
    let t := lexer.token
    let token := t.1
    let lexer1 := t.2
    if isValidUtf8 token = false then .panic
    else if token = [] then .err (asciiBytes "Unexpected end of document")
    else if token = asciiBytes "null" then .ok .null lexer1
    else if token = asciiBytes "true" then .ok (.boolean true) lexer1
    else if token = asciiBytes "false" then .ok (.boolean false) lexer1
    else if token = [91] then parseLoop fuel lexer1 []
    else .err (asciiBytes "Unknown token '" ++ token ++ asciiBytes "'")

/-- The `loop` inside `parse_`'s `[` branch (lines 164-181): parse one
value, append it, then dispatch on the next token: `]` returns the
array, `,` loops, empty token → unexpected end of document, anything
else → the expected-separator error (whose construction at line 177
calls `from_utf8(next).unwrap()`, a panic on invalid UTF-8). -/
def parseLoop : Nat → Lexer → List Value → PResult
  | 0, _, _ => .outOfFuel
  | fuel + 1, lexer, arr =>
    match parse_ fuel lexer with
    | .ok val lexer1 =>
      let arr1 := arr ++ [val]
      let t := lexer1.token
      let next := t.1
      let lexer2 := t.2
      if next = [93] then .ok (.array arr1) lexer2
      else if next = [44] then parseLoop fuel lexer2 arr1
      else if next = [] then .err (asciiBytes "Unexpected end of document")
      else if isValidUtf8 next = false then .panic
      else .err (asciiBytes "Expected ',' or ']' but got '" ++ next ++ asciiBytes "'")
    | r => r

end

/-- Outcome of the public `parse` (lines 126-139), with the lexer state
discarded as in the source. -/
inductive ParseOutcome where
  | ok : Value → ParseOutcome
  | err : List Nat → ParseOutcome
  | panic : ParseOutcome
  | outOfFuel : ParseOutcome
deriving DecidableEq

/-- Fuel supplied to `parse_` by `parse`: every recursive call is
preceded by consuming at least one byte, so `2 * length + 2` covers any
input. -/
def parseFuel (s : List Nat) : Nat := 2 * s.length + 2

/-- `parse` (lines 126-139): run `parse_` from position 0, skip trailing
whitespace, and require end of input; leftover text is reported in the
trailing-content error via `from_utf8(lexer.rest()).unwrap()` (line
134), a panic when the rest is not valid UTF-8. -/
def parse (s : List Nat) : ParseOutcome :=
  match parse_ (parseFuel s) (Lexer.mk s 0) with
  | .ok v lexer1 =>
    let lexer2 := lexer1.skip_whitespace
    if lexer2.eof then .ok v
    else if isValidUtf8 lexer2.rest = false then .panic
    else .err (asciiBytes "Extra goop at the end of the file: " ++ lexer2.rest)
  | .err m => .err m
  | .panic => .panic
  | .outOfFuel => .outOfFuel

/-- Whether `needle` is a leading segment of `hay` (byte lists). -/
def listPrefixOf : List Nat → List Nat → Bool
  | [], _ => true
  | _ :: _, [] => false
  | a :: as, b :: bs => a == b && listPrefixOf as bs

/-- Whether `needle` occurs contiguously anywhere in the second list:
used to state that an error message contains a given text. -/
def occursIn (needle : List Nat) : List Nat → Bool
  | [] => listPrefixOf needle []
  | b :: tl => listPrefixOf needle (b :: tl) || occursIn needle tl

lemma listPrefixOf_refl : ∀ l : List Nat, listPrefixOf l l = true := by
  intro l
  induction l with
  | nil => rfl
  | cons a tl ih => simp [listPrefixOf, ih]

lemma occursIn_append : ∀ p n : List Nat, occursIn n (p ++ n) = true := by
  intro p n
  induction p with
  | nil =>
    cases n with
    | nil => rfl
    | cons b tl => simp [occursIn, listPrefixOf_refl]
  | cons a p ih => simp [occursIn, ih]

lemma length_takeWhile_le (p : Nat → Bool) :
    ∀ l : List Nat, (List.takeWhile p l).length ≤ l.length := by
  intro l
  induction l with
  | nil => simp
  | cons a tl ih =>
    rw [List.takeWhile_cons]
    split
    · simpa using ih
    · simp

lemma advance_s (l : Lexer) : (l.advance).s = l.s := by
  unfold Lexer.advance
  split <;> rfl

lemma advance_pos_ge (l : Lexer) : l.pos ≤ (l.advance).pos := by
  unfold Lexer.advance
  split
  · exact le_refl _
  · exact Nat.le_succ _

lemma advance_pos_le (l : Lexer) (h : l.pos ≤ l.s.length) : (l.advance).pos ≤ l.s.length := by
  unfold Lexer.advance
  split
  · exact h
  · rename_i heof
    have hlt : ¬ (l.s.length ≤ l.pos) := by simpa [Lexer.eof] using heof
    show l.pos + 1 ≤ l.s.length
    omega

lemma advance_eof_noop (l : Lexer) (h : l.eof = true) : l.advance = l := by
  simp [Lexer.advance, h]

lemma take_while_s (l : Lexer) (p : Nat → Bool) : ((l.take_while p).2).s = l.s := rfl

lemma take_while_pos_ge (l : Lexer) (p : Nat → Bool) : l.pos ≤ ((l.take_while p).2).pos :=
  Nat.le_add_right _ _

lemma take_while_pos_le (l : Lexer) (p : Nat → Bool) (h : l.pos ≤ l.s.length) :
    ((l.take_while p).2).pos ≤ l.s.length := by
  have h1 : (List.takeWhile p (l.s.drop l.pos)).length ≤ (l.s.drop l.pos).length :=
    length_takeWhile_le p _
  have h2 : (l.s.drop l.pos).length = l.s.length - l.pos := List.length_drop _ _
  show l.pos + (List.takeWhile p (l.s.drop l.pos)).length ≤ l.s.length
  omega

lemma skip_whitespace_s (l : Lexer) : (l.skip_whitespace).s = l.s := rfl

lemma skip_whitespace_pos_ge (l : Lexer) : l.pos ≤ (l.skip_whitespace).pos :=
  take_while_pos_ge l isWhitespaceByte

lemma skip_whitespace_pos_le (l : Lexer) (h : l.pos ≤ l.s.length) :
    (l.skip_whitespace).pos ≤ l.s.length :=
  take_while_pos_le l isWhitespaceByte h

lemma take_byte_s (l : Lexer) : ((l.take_byte).2).s = l.s := by
  unfold Lexer.take_byte
  split
  · rfl
  · exact advance_s l

lemma take_byte_pos_ge (l : Lexer) : l.pos ≤ ((l.take_byte).2).pos := by
  unfold Lexer.take_byte
  split
  · exact le_refl _
  · exact advance_pos_ge l

lemma take_byte_pos_le (l : Lexer) (h : l.pos ≤ l.s.length) :
    ((l.take_byte).2).pos ≤ l.s.length := by
  unfold Lexer.take_byte
  split
  · exact h
  · exact advance_pos_le l h

lemma token_s (l : Lexer) : ((l.token).2).s = l.s := by
  unfold Lexer.token
  dsimp only
  split
  · exact skip_whitespace_s l
  · simp only
    split
    · rw [skip_whitespace_s, advance_s, skip_whitespace_s]
    · split
      · rw [skip_whitespace_s, take_while_s, skip_whitespace_s]
      · rw [skip_whitespace_s, advance_s, skip_whitespace_s]

lemma token_pos_ge (l : Lexer) : l.pos ≤ ((l.token).2).pos := by
  unfold Lexer.token
  dsimp only
  split
  · exact skip_whitespace_pos_ge l
  · simp only
    split
    · calc l.pos ≤ (l.skip_whitespace).pos := skip_whitespace_pos_ge l
        _ ≤ ((l.skip_whitespace).advance).pos := advance_pos_ge _
        _ ≤ _ := skip_whitespace_pos_ge _
    · split
      · calc l.pos ≤ (l.skip_whitespace).pos := skip_whitespace_pos_ge l
          _ ≤ (((l.skip_whitespace).take_while is_identifier_char).2).pos :=
            take_while_pos_ge _ _
          _ ≤ _ := skip_whitespace_pos_ge _
      · calc l.pos ≤ (l.skip_whitespace).pos := skip_whitespace_pos_ge l
          _ ≤ ((l.skip_whitespace).advance).pos := advance_pos_ge _
          _ ≤ _ := skip_whitespace_pos_ge _

lemma token_pos_le (l : Lexer) (h : l.pos ≤ l.s.length) :
    ((l.token).2).pos ≤ l.s.length := by
  have h1 : (l.skip_whitespace).pos ≤ (l.skip_whitespace).s.length := by
    rw [skip_whitespace_s]
    exact skip_whitespace_pos_le l h
  unfold Lexer.token
  dsimp only
  split
  · exact skip_whitespace_pos_le l h
  · simp only
    split
    · have h2 := advance_pos_le (l.skip_whitespace) h1
      have h2a : ((l.skip_whitespace).advance).pos ≤ ((l.skip_whitespace).advance).s.length := by
        rwa [advance_s]
      have h3 := skip_whitespace_pos_le ((l.skip_whitespace).advance) h2a
      rwa [advance_s, skip_whitespace_s] at h3
    · split
      · have h2 := take_while_pos_le (l.skip_whitespace) is_identifier_char h1
        have h2a : (((l.skip_whitespace).take_while is_identifier_char).2).pos ≤
            (((l.skip_whitespace).take_while is_identifier_char).2).s.length := by
          rwa [take_while_s]
        have h3 :=
          skip_whitespace_pos_le (((l.skip_whitespace).take_while is_identifier_char).2) h2a
        rwa [take_while_s, skip_whitespace_s] at h3
      · have h2 := advance_pos_le (l.skip_whitespace) h1
        have h2a : ((l.skip_whitespace).advance).pos ≤ ((l.skip_whitespace).advance).s.length := by
          rwa [advance_s]
        have h3 := skip_whitespace_pos_le ((l.skip_whitespace).advance) h2a
        rwa [advance_s, skip_whitespace_s] at h3

/-- Claim C1: the claim says `parse` is total over the public interface,
returning `Ok` or a `ParseError` and never panicking, even on non-ASCII
input. The code violates this: on the input `"é"` (UTF-8 bytes
`[0xC3, 0xA9]`) the lexer's fallback branch makes the one-byte token
`[0xC3]`, which is not valid UTF-8, and `parse_`'s
`from_utf8(token).unwrap()` (voorhees.rs line 153) panics. This theorem
evaluates the embedded code at that failing input. -/
theorem parse_panics_on_non_ascii : parse [195, 169] = .panic := by decide

/-- Claim C2: `parse "null"` is `Ok(Null)`, `parse "true"` is
`Ok(Boolean(true))`, `parse "false"` is `Ok(Boolean(false))`. -/
theorem parse_literal_values :
    parse (asciiBytes "null") = .ok .null ∧
    parse (asciiBytes "true") = .ok (.boolean true) ∧
    parse (asciiBytes "false") = .ok (.boolean false) := by decide

/-- Claim C3: a bracketed comma-separated sequence parses to an `Array`
with the elements in input order, including nested arrays:
`parse "[true,false,null]"` and `parse "[true,[false,null]]"` give
exactly the corresponding trees. -/
theorem parse_array_order :
    parse (asciiBytes "[true,false,null]") =
      .ok (.array [.boolean true, .boolean false, .null]) ∧
    parse (asciiBytes "[true,[false,null]]") =
      .ok (.array [.boolean true, .array [.boolean false, .null]]) := by decide

/-- Claim C9: `parse` is deterministic — the embedding is a pure
function of the input bytes, so two invocations on the same input are
equal, and in particular two successful results carry equal trees. -/
theorem parse_deterministic :
    ∀ s : List Nat, parse s = parse s ∧
      ∀ v w : Value, parse s = .ok v → parse s = .ok w → v = w := by
  intro s
  refine ⟨rfl, fun v w h1 h2 => ?_⟩
  rw [h1] at h2
  exact ParseOutcome.ok.inj h2

/-- Witness for C9 at the concrete input `"null"`. -/
theorem parse_deterministic_witness :
    parse (asciiBytes "null") = parse (asciiBytes "null") ∧
      Value.null = Value.null :=
  ⟨(parse_deterministic (asciiBytes "null")).1,
    (parse_deterministic (asciiBytes "null")).2 .null .null
      (by decide) (by decide)⟩

/-- Claim C4: `parse` is insensitive to surrounding whitespace
(`parse " [ true , false ] "` equals `parse "[true,false]"`), and the
bytes `skip_whitespace` consumes are exactly space (32), tab (9),
carriage return (13) and line feed (10): on a one-byte buffer the
cursor moves iff the byte is one of those four, and form feed (12) in
particular is not skipped. -/
theorem parse_whitespace_insensitive :
    parse (asciiBytes " [ true , false ] ") = parse (asciiBytes "[true,false]") ∧
    (∀ b : Nat, (Lexer.skip_whitespace ⟨[b], 0⟩).pos = 1 ↔
      (b = 32 ∨ b = 9 ∨ b = 13 ∨ b = 10)) ∧
    (Lexer.skip_whitespace ⟨[12], 0⟩).pos = 0 := by
  refine ⟨by decide, ?_, by decide⟩
  intro b
  have hpos : (Lexer.skip_whitespace ⟨[b], 0⟩).pos =
      0 + (List.takeWhile isWhitespaceByte [b]).length := rfl
  cases hw : isWhitespaceByte b with
  | true =>
    have h1 : (Lexer.skip_whitespace ⟨[b], 0⟩).pos = 1 := by
      rw [hpos]
      simp [List.takeWhile_cons, hw]
    have h2 : b = 32 ∨ b = 9 ∨ b = 13 ∨ b = 10 := by
      simp [isWhitespaceByte] at hw
      tauto
    simp [h1, h2]
  | false =>
    have h1 : (Lexer.skip_whitespace ⟨[b], 0⟩).pos = 0 := by
      rw [hpos]
      simp [List.takeWhile_cons, hw]
    have h2 : ¬(b = 32 ∨ b = 9 ∨ b = 13 ∨ b = 10) := by
      simp [isWhitespaceByte] at hw
      tauto
    simp [h1, h2]

/-- Witness for C4: the space byte is consumed on a one-byte buffer. -/
theorem parse_whitespace_insensitive_witness :
    (Lexer.skip_whitespace ⟨[32], 0⟩).pos = 1 :=
  (parse_whitespace_insensitive.2.1 32).mpr (Or.inl rfl)

/-- Claim C5: when a value is expected and the (valid-UTF-8, nonempty)
token is none of `null`, `true`, `false`, `[`, `parse_` fails with the
unknown-token error naming the token text; concretely, `parse "xyz"`
fails naming `xyz`, and `parse "[]"` and `parse "[true,]"` each fail by
attempting to parse `]` as a value, naming `]`. -/
theorem parse_unknown_token_error :
    (∀ (fuel : Nat) (l l₂ : Lexer) (t : List Nat),
      l.token = (t, l₂) → isValidUtf8 t = true → t ≠ [] →
      t ≠ asciiBytes "null" → t ≠ asciiBytes "true" → t ≠ asciiBytes "false" → t ≠ [91] →
      parse_ (fuel + 1) l = .err (asciiBytes "Unknown token '" ++ t ++ asciiBytes "'")) ∧
    parse (asciiBytes "xyz") = .err (asciiBytes "Unknown token 'xyz'") ∧
    parse (asciiBytes "[]") = .err (asciiBytes "Unknown token ']'") ∧
    parse (asciiBytes "[true,]") = .err (asciiBytes "Unknown token ']'") := by
  refine ⟨?_, by decide, by decide, by decide⟩
  intro fuel l l₂ t htok hvalid hne hnull htrue hfalse hbr
  simp only [parse_, htok, hvalid]
  simp [hne, hnull, htrue, hfalse, hbr]

/-- Witness for C5: the general part applied to the lexer over `"xyz"`. -/
theorem parse_unknown_token_error_witness :
    parse_ 1 (Lexer.mk (asciiBytes "xyz") 0) =
      .err (asciiBytes "Unknown token '" ++ asciiBytes "xyz" ++ asciiBytes "'") :=
  parse_unknown_token_error.1 0 (Lexer.mk (asciiBytes "xyz") 0)
    (Lexer.mk (asciiBytes "xyz") 3) (asciiBytes "xyz")
    (by decide) (by decide) (by decide) (by decide) (by decide) (by decide) (by decide)

/-- Claim C6: whenever a token is required but the input is exhausted
(the lexer returns the empty token), the parser fails with the
unexpected-end-of-document error: at the top level (`parse ""`), in any
state of `parse_`, and inside the array loop after an element (e.g.
`parse "[true"`). -/
theorem parse_unexpected_end_error :
    parse (asciiBytes "") = .err (asciiBytes "Unexpected end of document") ∧
    (∀ (fuel : Nat) (l l₂ : Lexer), l.token = ([], l₂) →
      parse_ (fuel + 1) l = .err (asciiBytes "Unexpected end of document")) ∧
    (∀ (fuel : Nat) (l l₁ l₂ : Lexer) (v : Value) (arr : List Value),
      parse_ fuel l = .ok v l₁ → l₁.token = ([], l₂) →
      parseLoop (fuel + 1) l arr = .err (asciiBytes "Unexpected end of document")) ∧
    parse (asciiBytes "[true") = .err (asciiBytes "Unexpected end of document") := by
  have hnil : isValidUtf8 [] = true := rfl
  refine ⟨by decide, ?_, ?_, by decide⟩
  · intro fuel l l₂ htok
    simp only [parse_, htok]
    simp [hnil]
  · intro fuel l l₁ l₂ v arr hp htok
    simp only [parseLoop, hp, htok]
    simp

/-- Witness for C6: the empty-token cases at concrete lexers (`parse_`
on the empty buffer; the array loop after parsing `true` with nothing
following). -/
theorem parse_unexpected_end_error_witness :
    parse_ 1 (Lexer.mk [] 0) = .err (asciiBytes "Unexpected end of document") ∧
    parseLoop 2 (Lexer.mk (asciiBytes "true") 0) [] =
      .err (asciiBytes "Unexpected end of document") :=
  ⟨parse_unexpected_end_error.2.1 0 (Lexer.mk [] 0) (Lexer.mk [] 0) (by decide),
    parse_unexpected_end_error.2.2.1 1 (Lexer.mk (asciiBytes "true") 0)
      (Lexer.mk (asciiBytes "true") 4) (Lexer.mk (asciiBytes "true") 4)
      (.boolean true) [] (by decide) (by decide)⟩

/-- Claim C7: inside the array loop, after a parsed element the next
token is dispatched exactly as: `]` terminates the loop returning the
array built so far; `,` continues the loop (another value mandatory);
the empty token fails with the end-of-document error; any other (valid
UTF-8) token fails with the expected-separator message naming it. -/
theorem parse_array_loop_dispatch :
    ∀ (fuel : Nat) (l l₁ l₂ : Lexer) (v : Value) (arr : List Value) (next : List Nat),
      parse_ fuel l = .ok v l₁ → l₁.token = (next, l₂) →
      (next = [93] → parseLoop (fuel + 1) l arr = .ok (.array (arr ++ [v])) l₂) ∧
      (next = [44] → parseLoop (fuel + 1) l arr = parseLoop fuel l₂ (arr ++ [v])) ∧
      (next = [] → parseLoop (fuel + 1) l arr =
        .err (asciiBytes "Unexpected end of document")) ∧
      (next ≠ [93] → next ≠ [44] → next ≠ [] → isValidUtf8 next = true →
        parseLoop (fuel + 1) l arr =
          .err (asciiBytes "Expected ',' or ']' but got '" ++ next ++ asciiBytes "'")) := by
  intro fuel l l₁ l₂ v arr next hp htok
  refine ⟨?_, ?_, ?_, ?_⟩
  · intro h
    subst h
    simp only [parseLoop, hp, htok]
    simp
  · intro h
    subst h
    simp only [parseLoop, hp, htok]
    simp
  · intro h
    subst h
    simp only [parseLoop, hp, htok]
    simp
  · intro h93 h44 hne hvalid
    simp only [parseLoop, hp, htok, hvalid]
    simp [h93, h44, hne, hvalid]

/-- Witness for C7: the close-bracket and comma branches at concrete
lexers over `"true]"` and `"true,null]"`. -/
theorem parse_array_loop_dispatch_witness :
    parseLoop 2 (Lexer.mk (asciiBytes "true]") 0) [] =
      .ok (.array [.boolean true]) (Lexer.mk (asciiBytes "true]") 5) ∧
    parseLoop 2 (Lexer.mk (asciiBytes "true,null]") 0) [] =
      parseLoop 1 (Lexer.mk (asciiBytes "true,null]") 5) [.boolean true] :=
  ⟨(parse_array_loop_dispatch 1 (Lexer.mk (asciiBytes "true]") 0)
      (Lexer.mk (asciiBytes "true]") 4) (Lexer.mk (asciiBytes "true]") 5)
      (.boolean true) [] [93] (by decide) (by decide)).1 rfl,
    (parse_array_loop_dispatch 1 (Lexer.mk (asciiBytes "true,null]") 0)
      (Lexer.mk (asciiBytes "true,null]") 4) (Lexer.mk (asciiBytes "true,null]") 5)
      (.boolean true) [] [44] (by decide) (by decide)).2.1 rfl⟩

/-- Claim C8: after one complete top-level value and trailing
whitespace, leftover characters make `parse` fail with the trailing
("extra goop") error whose message contains the literal leftover text;
concretely `parse "null extra"` fails with a message containing
`extra`. -/
theorem parse_trailing_content_error :
    (∀ (s : List Nat) (v : Value) (l₁ : Lexer),
      parse_ (parseFuel s) (Lexer.mk s 0) = .ok v l₁ →
      (l₁.skip_whitespace).eof = false →
      isValidUtf8 (l₁.skip_whitespace).rest = true →
      parse s = .err (asciiBytes "Extra goop at the end of the file: " ++
        (l₁.skip_whitespace).rest) ∧
      occursIn (l₁.skip_whitespace).rest
        (asciiBytes "Extra goop at the end of the file: " ++
          (l₁.skip_whitespace).rest) = true) ∧
    parse (asciiBytes "null extra") =
      .err (asciiBytes "Extra goop at the end of the file: extra") ∧
    occursIn (asciiBytes "extra")
      (asciiBytes "Extra goop at the end of the file: extra") = true := by
  refine ⟨?_, by decide, by decide⟩
  intro s v l₁ hp heof hvalid
  constructor
  · simp only [parse, hp, heof, hvalid]
    simp
  · exact occursIn_append _ _

/-- Witness for C8: the general part applied to the input
`"null extra"`. -/
theorem parse_trailing_content_error_witness :
    parse (asciiBytes "null extra") =
      .err (asciiBytes "Extra goop at the end of the file: " ++
        ((Lexer.mk (asciiBytes "null extra") 5).skip_whitespace).rest) :=
  (parse_trailing_content_error.1 (asciiBytes "null extra") .null
    (Lexer.mk (asciiBytes "null extra") 5) (by decide) (by decide) (by decide)).1

/-- Claim C10: every Lexer operation preserves the cursor invariant:
starting from `pos ≤ length`, after `advance`, `take_byte`,
`take_while`, `skip_whitespace` and `token` the cursor has not
decreased, still does not exceed the buffer length, the buffer is
unchanged, and `advance` at end of input is a no-op. -/
theorem lexer_cursor_invariant :
    ∀ l : Lexer, l.pos ≤ l.s.length →
      (l.pos ≤ (l.advance).pos ∧ (l.advance).pos ≤ l.s.length ∧
        (l.advance).s = l.s ∧ (l.eof = true → l.advance = l)) ∧
      (l.pos ≤ ((l.take_byte).2).pos ∧ ((l.take_byte).2).pos ≤ l.s.length ∧
        ((l.take_byte).2).s = l.s) ∧
      (∀ p : Nat → Bool, l.pos ≤ ((l.take_while p).2).pos ∧
        ((l.take_while p).2).pos ≤ l.s.length ∧ ((l.take_while p).2).s = l.s) ∧
      (l.pos ≤ (l.skip_whitespace).pos ∧ (l.skip_whitespace).pos ≤ l.s.length ∧
        (l.skip_whitespace).s = l.s) ∧
      (l.pos ≤ ((l.token).2).pos ∧ ((l.token).2).pos ≤ l.s.length ∧
        ((l.token).2).s = l.s) := by
  intro l h
  refine ⟨⟨advance_pos_ge l, advance_pos_le l h, advance_s l, advance_eof_noop l⟩,
    ⟨take_byte_pos_ge l, take_byte_pos_le l h, take_byte_s l⟩,
    fun p => ⟨take_while_pos_ge l p, take_while_pos_le l p h, take_while_s l p⟩,
    ⟨skip_whitespace_pos_ge l, skip_whitespace_pos_le l h, skip_whitespace_s l⟩,
    ⟨token_pos_ge l, token_pos_le l h, token_s l⟩⟩

/-- Witness for C10: the invariant instantiated at the lexer over
`" null"` at position 0, with `take_while` applied to the whitespace
predicate. -/
theorem lexer_cursor_invariant_witness :
    (Lexer.mk (asciiBytes " null") 0).pos ≤
      (((Lexer.mk (asciiBytes " null") 0).token).2).pos ∧
    (((Lexer.mk (asciiBytes " null") 0).take_while isWhitespaceByte).2).pos ≤
      (asciiBytes " null").length ∧
    (((Lexer.mk (asciiBytes " null") 0).token).2).pos ≤ (asciiBytes " null").length := by
  have h := lexer_cursor_invariant (Lexer.mk (asciiBytes " null") 0) (by decide)
  exact ⟨h.2.2.2.2.1, (h.2.2.1 isWhitespaceByte).2.1, h.2.2.2.2.2.1⟩

end Voorhees
